import Mathlib

/-!
Shallow embedding of the CH559 USB-bootloader flasher (src/ch559.rs) and
verification of its specification claims.

Bytes are modelled as `Nat` values; each place the Rust source performs a
narrowing cast (`as u8`, `as u16`) or wrapping arithmetic, the embedding
takes the corresponding `% 256` / `% 65536`.  Fallible operations return
`Except String`, with the exact error strings of the source.  The USB
transport and the operating system's USB stack are modelled as explicit
oracles passed to each operation, and every operation also returns the
list of bulk transfers it attempted, so that transfer-level claims can be
stated.
-/

namespace Ch559flasher

/-- Payload length rounded up to the next multiple of 8, as the source
computes it in `write_verify_in_range`: `(data.len() + 7) & !7` on a
64-bit `usize` (the mask below is `!7` = 2^64 - 8). -/
def wv_length (n : Nat) : Nat := (n + 7) &&& 18446744073709551608

/-- One iteration of the request-building loop of `write_verify_in_range`:
push the next payload byte `b`, and when `i & 7 == 7` XOR the just-pushed
byte (request index `8 + i`) in place with the chip id. -/
def wv_push (chip_id : Nat) (req : List Nat) (i b : Nat) : List Nat :=
  let req2 := req ++ [b]
  if i &&& 7 = 7 then req2.set (8 + i) (Nat.xor (req2.getD (8 + i) 0) chip_id) else req2

/-- The byte pushed at loop index `i` in `write_verify_in_range` (before the
in-place XOR): a real data byte while `i < data.len()`, and otherwise the
padding value — a fresh random byte when `fullfill`, else `0xFF`.  The
random source is modelled as the stream `gen`, indexed by how many padding
bytes were drawn before (the draws are sequential); `% 256` models the
`u8` type of `rand::random::<u8>()`. -/
def wv_data_byte (data : List Nat) (fullfill : Bool) (gen : Nat → Nat) (i : Nat) : Nat :=
  if i < data.length then data.getD i 0
  else if fullfill then gen (i - data.length) % 256 else 0xff

/-- The request built by `Ch559::write_verify_in_range` (src/ch559.rs,
lines 398-424): opcode, `(length + 5) as u8`, 0, address low/high bytes,
0, 0, `length as u8`, then the payload loop.  `address` is
`addr + 0xF000` (u16 arithmetic) when `data_region && !write`, else the
raw `addr`; `% 65536` models the `u16` type of both. -/
def wv_request (addr : Nat) (data : List Nat) (write_ data_region fullfill : Bool)
    (chip_id : Nat) (gen : Nat → Nat) : List Nat :=
  let write_command : Nat := if data_region then 0xaa else 0xa5
  let length := wv_length data.length
  let address : Nat := if data_region && !write_ then (addr + 0xF000) % 65536 else addr % 65536
  let header : List Nat :=
    [if write_ then write_command else 0xa6,
     (length + 5) % 256, 0x00, address % 256, (address / 256) % 256,
     0x00, 0x00, length % 256]
  (List.range length).foldl
    (fun req i => wv_push chip_id req i (wv_data_byte data fullfill gen i)) header

theorem set_append_last (xs : List Nat) (b v : Nat) :
    (xs ++ [b]).set xs.length v = xs ++ [v] := by
  induction xs with
  | nil => rfl
  | cons x xs ih => simp [List.set, ih]

theorem getD_append_last (xs : List Nat) (b : Nat) :
    (xs ++ [b]).getD xs.length 0 = b := by
  simp [List.getD]

/-- One loop iteration, when the request already holds `8 + n` bytes,
appends the pushed byte, XORed with the chip id exactly when `n & 7 = 7`. -/
theorem wv_push_eq (cid : Nat) (xs : List Nat) (n b : Nat) (hlen : xs.length = 8 + n) :
    wv_push cid xs n b = xs ++ [if n &&& 7 = 7 then Nat.xor b cid else b] := by
  unfold wv_push
  by_cases h : n &&& 7 = 7
  · rw [if_pos h, if_pos h]
    have h8 : 8 + n = xs.length := hlen.symm
    rw [h8, getD_append_last, set_append_last]
  · rw [if_neg h, if_neg h]

/-- Closed form of the request-building loop: starting from any 8-byte
header, the loop appends, for each `i < n`, the payload byte for `i`,
XORed with the chip id exactly when `i % 8 = 7`. -/
theorem wv_fold_closed (cid : Nat) (f : Nat → Nat) (hdr : List Nat) (hlen : hdr.length = 8)
    (n : Nat) :
    (List.range n).foldl (fun req i => wv_push cid req i (f i)) hdr
      = hdr ++ (List.range n).map (fun i => if i % 8 = 7 then Nat.xor (f i) cid else f i) := by
  induction n with
  | zero => simp
  | succ n ih =>
    rw [List.range_succ, List.foldl_append, ih, List.map_append, List.foldl_cons,
      List.foldl_nil]
    have hmod : n &&& 7 = n % 8 := by
      have := Nat.and_pow_two_sub_one_eq_mod n 3
      norm_num at this
      omega
    have hlen2 : (hdr ++ (List.range n).map
        (fun i => if i % 8 = 7 then Nat.xor (f i) cid else f i)).length = 8 + n := by
      simp [hlen]
    rw [wv_push_eq cid _ n _ hlen2, hmod, List.append_assoc]
    simp

/-- Closed form of `wv_request`: the 8 header bytes followed by the padded
payload with the chip-id XOR applied at indices `i % 8 = 7`. -/
theorem wv_request_closed (addr : Nat) (data : List Nat) (w dr ff : Bool)
    (cid : Nat) (gen : Nat → Nat) :
    wv_request addr data w dr ff cid gen =
      [if w then (if dr then 0xaa else 0xa5) else 0xa6,
       (wv_length data.length + 5) % 256, 0x00,
       (if dr && !w then (addr + 0xF000) % 65536 else addr % 65536) % 256,
       ((if dr && !w then (addr + 0xF000) % 65536 else addr % 65536) / 256) % 256,
       0x00, 0x00, wv_length data.length % 256]
      ++ (List.range (wv_length data.length)).map
          (fun i => if i % 8 = 7 then Nat.xor (wv_data_byte data ff gen i) cid
                    else wv_data_byte data ff gen i) := by
  unfold wv_request
  refine wv_fold_closed cid _ _ ?_ _
  rfl

theorem wv_length_le (n : Nat) : wv_length n ≤ n + 7 := Nat.and_le_left

theorem wv_length_mod8 : ∀ m, m < 57 → wv_length m % 8 = 0 := by decide

theorem wv_length_ge : ∀ m, m < 57 → m ≤ wv_length m := by decide

/-- C1: every write/verify chunk request of `write_verify_in_range` with
payload of length at most 0x38 is
`[opcode, length+5, 0x00, addr_lo, addr_hi, 0x00, 0x00, length]` followed by
the payload padded to `length = (len + 7) & !7` bytes (padding `0xFF`, or
random when `fullfill`, with the chip-id XOR applied at every index
`i % 8 = 7`); opcode is 0xAA / 0xA5 / 0xA6 for data-write / code-write /
verify, and the address is `addr + 0xF000` exactly when `data_region` holds
and `write` does not, else the raw `addr`.  `addr` ranges over the whole
u16 domain; only the data-region verify branch additionally needs
`addr + 0xF000` not to wrap (data-region offsets stay below 0x400, far
under the 0x1000 bound). -/
theorem C1_write_verify_request_format (addr : Nat) (data : List Nat)
    (write_ data_region fullfill : Bool) (chip_id : Nat) (gen : Nat → Nat)
    (hlen : data.length ≤ 0x38) (haddr : addr < 65536)
    (haddr2 : (data_region && !write_) = true → addr + 0xF000 < 65536) :
    wv_request addr data write_ data_region fullfill chip_id gen =
      [if write_ then (if data_region then 0xaa else 0xa5) else 0xa6,
       wv_length data.length + 5, 0x00,
       (if data_region && !write_ then addr + 0xF000 else addr) % 256,
       ((if data_region && !write_ then addr + 0xF000 else addr) / 256) % 256,
       0x00, 0x00, wv_length data.length]
      ++ (List.range (wv_length data.length)).map
          (fun i =>
            let b : Nat := if i < data.length then data.getD i 0
                           else if fullfill then gen (i - data.length) % 256 else 0xff
            if i % 8 = 7 then Nat.xor b chip_id else b) := by
  rw [wv_request_closed]
  have hL : wv_length data.length ≤ 63 :=
    Nat.le_trans (wv_length_le _) (by omega)
  congr 1
  · rw [Nat.mod_eq_of_lt (a := wv_length data.length + 5) (by omega),
      Nat.mod_eq_of_lt (a := wv_length data.length) (by omega)]
    by_cases h : data_region && !write_
    · rw [if_pos h, if_pos h, Nat.mod_eq_of_lt (haddr2 h)]
    · rw [if_neg h, if_neg h, Nat.mod_eq_of_lt haddr]

theorem C1_witness :
    wv_request 2 [1, 2, 3] false true false 5 (fun _ => 0) =
      [0xa6, 13, 0x00, 2, 0xf0, 0x00, 0x00, 8, 1, 2, 3, 0xff, 0xff, 0xff, 0xff, 0xfa] :=
  C1_write_verify_request_format 2 [1, 2, 3] false true false 5 (fun _ => 0)
    (by decide) (by decide) (fun _ => by decide)

/-- C2: in every request built by `write_verify_in_range`, exactly the
payload bytes at indices `i % 8 = 7` within the padded payload are XORed
with the chip id; the 8 header bytes do not depend on the chip id, and the
padded payload length is a multiple of 8, so no unaligned tail bytes are
left un-XORed. -/
theorem C2_xor_every_eighth_payload_byte (addr : Nat) (data : List Nat)
    (write_ data_region fullfill : Bool) (chip_id : Nat) (gen : Nat → Nat)
    (hlen : data.length ≤ 0x38) :
    (∀ i, i < wv_length data.length →
        (wv_request addr data write_ data_region fullfill chip_id gen).getD (8 + i) 0 =
          if i % 8 = 7 then Nat.xor (wv_data_byte data fullfill gen i) chip_id
          else wv_data_byte data fullfill gen i)
    ∧ (wv_request addr data write_ data_region fullfill chip_id gen).take 8 =
        (wv_request addr data write_ data_region fullfill 0 gen).take 8
    ∧ wv_length data.length % 8 = 0
    ∧ (wv_request addr data write_ data_region fullfill chip_id gen).length =
        8 + wv_length data.length := by
  refine ⟨?_, ?_, wv_length_mod8 _ (by omega), ?_⟩
  · intro i hi
    rw [wv_request_closed, List.getD_append_right _ _ _ _ (by simp),
      List.getD_eq_getElem _ _ (by simpa using hi)]
    simp [hi]
  · rw [wv_request_closed, wv_request_closed]
    have h8 : (8 : Nat) = ([if write_ then (if data_region then 0xaa else 0xa5) else 0xa6,
       (wv_length data.length + 5) % 256, 0x00,
       (if data_region && !write_ then (addr + 0xF000) % 65536 else addr % 65536) % 256,
       ((if data_region && !write_ then (addr + 0xF000) % 65536 else addr % 65536) / 256) % 256,
       0x00, 0x00, wv_length data.length % 256] : List Nat).length := by simp
    rw [h8, List.take_left, List.take_left]
  · rw [wv_request_closed]
    simp
    omega

theorem C2_witness :
    (∀ i, i < wv_length 3 →
        (wv_request 2 [1, 2, 3] false true false 5 (fun _ => 0)).getD (8 + i) 0 =
          if i % 8 = 7 then Nat.xor (wv_data_byte [1, 2, 3] false (fun _ => 0) i) 5
          else wv_data_byte [1, 2, 3] false (fun _ => 0) i)
    ∧ (wv_request 2 [1, 2, 3] false true false 5 (fun _ => 0)).take 8 =
        (wv_request 2 [1, 2, 3] false true false 0 (fun _ => 0)).take 8
    ∧ wv_length 3 % 8 = 0
    ∧ (wv_request 2 [1, 2, 3] false true false 5 (fun _ => 0)).length = 8 + wv_length 3 :=
  C2_xor_every_eighth_payload_byte 2 [1, 2, 3] false true false 5 (fun _ => 0) (by decide)

/-- A bulk transfer attempted on the wire: an OUT transfer carrying a
request, or an IN transfer for a response buffer of the given length.
The timeout is in seconds (the source always passes
`core::time::Duration::new(1, 0)`). -/
inductive Xfer where
  | out (request : List Nat) (timeoutSecs : Nat)
  | inn (bufferLen : Nat) (timeoutSecs : Nat)
deriving DecidableEq, Repr

/-- Oracle for the rusb bulk-transfer primitives.  `write_bulk` receives
the request and the timeout and reports the number of bytes accepted (or a
transfer error); `read_bulk` receives the request most recently written
(the bootloader is strictly request/response, so the pending request is
the whole device state relevant to a response), the buffer length and the
timeout, and yields the bytes placed in the buffer (or a transfer error,
carried as a string, which models the underlying rusb error value). -/
structure Transport where
  write_bulk : List Nat → Nat → Except String Nat
  read_bulk : List Nat → Nat → Nat → Except String (List Nat)

/-- The `Ch559` session state (src/ch559.rs lines 12-20).  `handle` is
whether the rusb device handle is present (`Option` in the source). -/
structure Ch559 where
  handle : Bool
  ep_in : Nat
  ep_out : Nat
  chip_id : Nat
  version : String
  sum : Nat
  key_is_reset : Bool
deriving DecidableEq, Repr

def is_connected (s : Ch559) : Bool := s.handle

/-- `Ch559::send_receive` (src/ch559.rs lines 328-351): one bulk OUT
transfer of the request with a 1-second timeout, then one bulk IN transfer
into a zero-initialised buffer of `respLen` bytes with the same timeout.
The returned buffer is the transport's bytes truncated or zero-padded to
`respLen` (`List.takeD`), matching the fixed-size out-parameter of the
source.  Also returns the list of transfers attempted. -/
def send_receive (s : Ch559) (t : Transport) (request : List Nat) (respLen : Nat) :
    Except String (List Nat) × List Xfer :=
  if s.handle then
    match t.write_bulk request 1 with
    | Except.ok size =>
      if size ≠ request.length then
        (Except.error "failed to do a bulk write all data", [Xfer.out request 1])
      else
        match t.read_bulk request respLen 1 with
        | Except.ok bytes =>
          (Except.ok (List.takeD respLen bytes 0), [Xfer.out request 1, Xfer.inn respLen 1])
        | Except.error e =>
          (Except.error ("failed to do a bulk read response (" ++ e ++ ")"),
           [Xfer.out request 1, Xfer.inn respLen 1])
    | Except.error _ => (Except.error "failed to do a bulk write", [Xfer.out request 1])
  else (Except.error "invalid handle", [])

/-- `Ch559::reset_key` (src/ch559.rs lines 301-326): nothing to do when the
key is already reset; otherwise send the 0x33-byte request
`[0xA3, 0x30, 0x00]` followed by 0x30 copies of the checksum seed, read a
6-byte response, and require its byte 4 to equal the chip id. -/
def reset_key (s : Ch559) (t : Transport) : (Except String Unit × Ch559) × List Xfer :=
  if s.handle = false then ((Except.error "invalid handle", s), [])
  else if s.key_is_reset then ((Except.ok (), s), [])
  else
    let request := 0xa3 :: 0x30 :: 0x00 :: List.replicate 0x30 s.sum
    match send_receive s t request 6 with
    | (Except.ok response, tr) =>
      if response.getD 4 0 ≠ s.chip_id then ((Except.error "failed to reset key", s), tr)
      else ((Except.ok (), { s with key_is_reset := true }), tr)
    | (Except.error e, tr) => ((Except.error e, s), tr)

/-- `Ch559::erase` (src/ch559.rs lines 51-67). -/
def erase (s : Ch559) (t : Transport) : (Except String Unit × Ch559) × List Xfer :=
  match reset_key s t with
  | ((Except.error e, s2), tr) => ((Except.error e, s2), tr)
  | ((Except.ok _, s2), tr) =>
    match send_receive s2 t [0xa4, 0x01, 0x00, 60] 6 with
    | (Except.ok response, tr2) =>
      (if response.getD 4 0 ≠ 0 then (Except.error "failed to erase", s2)
       else (Except.ok (), s2), tr ++ tr2)
    | (Except.error e, tr2) => ((Except.error e, s2), tr ++ tr2)

/-- `Ch559::erase_data` (src/ch559.rs lines 69-84). -/
def erase_data (s : Ch559) (t : Transport) : (Except String Unit × Ch559) × List Xfer :=
  match reset_key s t with
  | ((Except.error e, s2), tr) => ((Except.error e, s2), tr)
  | ((Except.ok _, s2), tr) =>
    match send_receive s2 t [0xa9, 0x00, 0x00, 0x00] 6 with
    | (Except.ok response, tr2) =>
      (if response.getD 4 0 ≠ 0 then (Except.error "failed to erase", s2)
       else (Except.ok (), s2), tr ++ tr2)
    | (Except.error e, tr2) => ((Except.error e, s2), tr ++ tr2)

/-- A transport whose write always accepts the full request and whose read
always fills the buffer with zero bytes (so every response has status 0). -/
def okTransport : Transport :=
  ⟨fun req _ => Except.ok req.length, fun _ len _ => Except.ok (List.replicate len 0)⟩

/-- A successful exchange: full write accepted, read delivers `bytes`. -/
theorem send_receive_ok (s : Ch559) (t : Transport) (request : List Nat)
    (respLen n : Nat) (bytes : List Nat) (hh : s.handle = true)
    (hw : t.write_bulk request 1 = Except.ok n) (hn : n = request.length)
    (hr : t.read_bulk request respLen 1 = Except.ok bytes) :
    send_receive s t request respLen =
      (Except.ok (List.takeD respLen bytes 0), [Xfer.out request 1, Xfer.inn respLen 1]) := by
  unfold send_receive
  rw [hh, hw, hn, hr]
  simp

/-- `reset_key` when the handle is present and the key is not yet reset:
it performs the key-reset exchange. -/
theorem reset_key_exchange (s : Ch559) (t : Transport) (hh : s.handle = true)
    (hk : s.key_is_reset = false) :
    reset_key s t =
      match send_receive s t (0xa3 :: 0x30 :: 0x00 :: List.replicate 0x30 s.sum) 6 with
      | (Except.ok response, tr) =>
        if response.getD 4 0 ≠ s.chip_id then ((Except.error "failed to reset key", s), tr)
        else ((Except.ok (), { s with key_is_reset := true }), tr)
      | (Except.error e, tr) => ((Except.error e, s), tr) := by
  unfold reset_key
  rw [hh, hk]
  rfl

/-- C3: `reset_key` is lazy and at-most-once.  With the key already reset it
returns success without touching the wire; otherwise it sends the 0x33-byte
request `[0xA3, 0x30, 0x00] ++ 0x30 × checksum_seed` and reads a 6-byte
response.  If response byte 4 differs from the chip id it fails with the
key-reset-mismatch error and the state (hence `key_is_reset = false`) is
unchanged, so the next operation retries the handshake; if it matches,
`key_is_reset` becomes true. -/
theorem C3_reset_key_lazy_at_most_once (s : Ch559) (t : Transport)
    (hh : s.handle = true) :
    (s.key_is_reset = true → reset_key s t = ((Except.ok (), s), []))
    ∧ (s.key_is_reset = false →
        (0xa3 :: 0x30 :: 0x00 :: List.replicate 0x30 s.sum).length = 0x33
        ∧ ∀ bytes,
            t.write_bulk (0xa3 :: 0x30 :: 0x00 :: List.replicate 0x30 s.sum) 1 =
              Except.ok 0x33 →
            t.read_bulk (0xa3 :: 0x30 :: 0x00 :: List.replicate 0x30 s.sum) 6 1 =
              Except.ok bytes →
            ((List.takeD 6 bytes 0).getD 4 0 ≠ s.chip_id →
              reset_key s t = ((Except.error "failed to reset key", s),
                [Xfer.out (0xa3 :: 0x30 :: 0x00 :: List.replicate 0x30 s.sum) 1,
                 Xfer.inn 6 1]))
            ∧ ((List.takeD 6 bytes 0).getD 4 0 = s.chip_id →
              reset_key s t = ((Except.ok (), { s with key_is_reset := true }),
                [Xfer.out (0xa3 :: 0x30 :: 0x00 :: List.replicate 0x30 s.sum) 1,
                 Xfer.inn 6 1]))) := by
  constructor
  · intro hk
    simp [reset_key, hh, hk]
  · intro hk
    refine ⟨by simp, ?_⟩
    intro bytes hw hr
    have hsr : send_receive s t (0xa3 :: 0x30 :: 0x00 :: List.replicate 0x30 s.sum) 6
        = (Except.ok (List.takeD 6 bytes 0),
           [Xfer.out (0xa3 :: 0x30 :: 0x00 :: List.replicate 0x30 s.sum) 1, Xfer.inn 6 1]) :=
      send_receive_ok s t _ 6 0x33 bytes hh hw (by simp) hr
    rw [reset_key_exchange s t hh hk, hsr]
    constructor
    · intro hne
      exact if_pos hne
    · intro heq
      exact if_neg (fun h => h heq)

theorem C3_witness :
    reset_key ⟨true, 0, 0, 7, "unknown", 9, false⟩ okTransport
      = ((Except.error "failed to reset key", ⟨true, 0, 0, 7, "unknown", 9, false⟩),
         [Xfer.out (0xa3 :: 0x30 :: 0x00 :: List.replicate 0x30 9) 1, Xfer.inn 6 1]) :=
  (((C3_reset_key_lazy_at_most_once ⟨true, 0, 0, 7, "unknown", 9, false⟩ okTransport
      rfl).2 rfl).2 (List.replicate 6 0) rfl rfl).1 (by decide)

/-- C8: each exchange is one bulk OUT transfer of the whole request with a
1-second timeout — failing with the write-short error when fewer bytes are
accepted and the write-failed error on a transfer error — followed by one
bulk IN transfer into a buffer of exactly the expected response length with
the same timeout, whose transfer error (or timeout) is wrapped as
`failed to do a bulk read response (cause)`; there are no retries (at most
one OUT and one IN transfer ever happen). -/
theorem C8_send_receive_transport_contract (s : Ch559) (t : Transport)
    (request : List Nat) (respLen : Nat) (hh : s.handle = true) :
    ((send_receive s t request respLen).2 = [Xfer.out request 1]
      ∨ (send_receive s t request respLen).2 = [Xfer.out request 1, Xfer.inn respLen 1])
    ∧ (∀ n, t.write_bulk request 1 = Except.ok n → n ≠ request.length →
        send_receive s t request respLen =
          (Except.error "failed to do a bulk write all data", [Xfer.out request 1]))
    ∧ (∀ e, t.write_bulk request 1 = Except.error e →
        send_receive s t request respLen =
          (Except.error "failed to do a bulk write", [Xfer.out request 1]))
    ∧ (∀ e, t.write_bulk request 1 = Except.ok request.length →
        t.read_bulk request respLen 1 = Except.error e →
        send_receive s t request respLen =
          (Except.error ("failed to do a bulk read response (" ++ e ++ ")"),
           [Xfer.out request 1, Xfer.inn respLen 1]))
    ∧ (∀ bytes, t.write_bulk request 1 = Except.ok request.length →
        t.read_bulk request respLen 1 = Except.ok bytes →
        send_receive s t request respLen =
          (Except.ok (List.takeD respLen bytes 0), [Xfer.out request 1, Xfer.inn respLen 1])
        ∧ (List.takeD respLen bytes 0).length = respLen) := by
  refine ⟨?_, ?_, ?_, ?_, ?_⟩
  · cases hw : t.write_bulk request 1 with
    | error e => simp [send_receive, hh, hw]
    | ok n =>
      by_cases hn : n = request.length
      · cases hr : t.read_bulk request respLen 1 with
        | error e => simp [send_receive, hh, hw, hn, hr]
        | ok bytes => simp [send_receive, hh, hw, hn, hr]
      · simp [send_receive, hh, hw, hn]
  · intro n hw hn
    simp [send_receive, hh, hw, hn]
  · intro e hw
    simp [send_receive, hh, hw]
  · intro e hw hr
    simp [send_receive, hh, hw, hr]
  · intro bytes hw hr
    exact ⟨by simp [send_receive, hh, hw, hr], by simp⟩

theorem C8_witness :
    send_receive ⟨true, 0, 0, 7, "unknown", 9, false⟩ okTransport [1, 2, 3] 6
      = (Except.ok [0, 0, 0, 0, 0, 0], [Xfer.out [1, 2, 3] 1, Xfer.inn 6 1])
    ∧ (List.takeD 6 (List.replicate 6 0) 0).length = 6 :=
  (C8_send_receive_transport_contract ⟨true, 0, 0, 7, "unknown", 9, false⟩ okTransport
      [1, 2, 3] 6 rfl).2.2.2.2 (List.replicate 6 0) rfl rfl

theorem takeD_of_length_eq (l : List Nat) (n : Nat) (h : l.length = n) :
    List.takeD n l 0 = l := by
  subst h
  rw [List.takeD_eq_take 0 (Nat.le_refl _), List.take_length]

/-- The chunk iteration `for offset in (0..length).step_by(0x38)` shared by
`Ch559::read_data` and `Ch559::write`: the offsets 0, 0x38, 0x70, … below
`length`, each paired with the chunk size
`min(0x38, length - offset)` computed exactly as in the source.  The first
argument is recursion fuel; each iteration advances the offset by 0x38, so
any fuel of at least `length` steps is enough (`chunks` passes `length`). -/
def chunksFromAux : Nat → Nat → Nat → List (Nat × Nat)
  | 0, _, _ => []
  | fuel + 1, length, offset =>
    if offset < length then
      let remaining := length - offset
      let size := if remaining > 0x38 then 0x38 else remaining
      (offset, size) :: chunksFromAux fuel length (offset + 0x38)
    else []

def chunks (length : Nat) : List (Nat × Nat) := chunksFromAux (length / 0x38 + 1) length 0

/-- `Ch559::read_data_in_range` (src/ch559.rs lines 355-383): request
`[0xAB, 0, 0, addr_lo, addr_hi, 0, 0, len]`, response of `len + 6` bytes
whose byte 4 must be 0, payload at offset 6. -/
def read_data_in_range (s : Ch559) (t : Transport) (addr len : Nat) :
    Except String (List Nat) × List Xfer :=
  if len > 0x38 then (Except.error "read size is too large", [])
  else
    let request : List Nat :=
      [0xab, 0x00, 0x00, addr % 256, (addr / 256) % 256, 0x00, 0x00, len % 256]
    match send_receive s t request (len + 6) with
    | (Except.ok response, tr) =>
      if response.getD 4 0 ≠ 0 then (Except.error "failed to read", tr)
      else (Except.ok ((List.range len).map (fun i => response.getD (i + 6) 0)), tr)
    | (Except.error e, tr) => (Except.error e, tr)

/-- The chunk loop of `Ch559::read_data`: read each chunk in order and
append its payload to the output sink (the destination file). -/
def read_loop (s : Ch559) (t : Transport) :
    List (Nat × Nat) → Except String (List Nat) × List Xfer
  | [] => (Except.ok [], [])
  | (off, size) :: rest =>
    match read_data_in_range s t off size with
    | (Except.ok chunk, tr) =>
      match read_loop s t rest with
      | (Except.ok out, tr2) => (Except.ok (chunk ++ out), tr ++ tr2)
      | (Except.error e, tr2) => (Except.error e, tr ++ tr2)
    | (Except.error e, tr) => (Except.error e, tr)

/-- `Ch559::read_data` (src/ch559.rs lines 86-117): reset the key, then read
the fixed 0x400-byte data region in chunks of at most 0x38 bytes.  The
destination file is modelled as the returned byte list. -/
def read_data (s : Ch559) (t : Transport) :
    (Except String (List Nat) × Ch559) × List Xfer :=
  match reset_key s t with
  | ((Except.error e, s2), tr) => ((Except.error e, s2), tr)
  | ((Except.ok _, s2), tr) =>
    match read_loop s2 t (chunks 0x400) with
    | (res, tr2) => ((res, s2), tr ++ tr2)

/-- A transport backed by flash contents `flash`: a read-chunk request
`[0xAB, 0, 0, lo, hi, 0, 0, sz]` is answered by a zero 6-byte header
followed by the `sz` flash bytes starting at address `lo + 256 * hi`. -/
def flashTransport (flash : Nat → Nat) : Transport where
  write_bulk := fun req _ => Except.ok req.length
  read_bulk := fun req len _ =>
    match req with
    | [0xab, _, _, lo, hi, _, _, sz] =>
      Except.ok (List.replicate 6 0 ++ (List.range sz).map (fun i => flash (lo + 256 * hi + i) % 256))
    | _ => Except.ok (List.replicate len 0)

theorem read_range_flash (s : Ch559) (flash : Nat → Nat) (off size : Nat)
    (hh : s.handle = true) (hsz : size ≤ 0x38) (hoff : off < 65536) :
    read_data_in_range s (flashTransport flash) off size =
      (Except.ok ((List.range size).map (fun i => flash (off + i) % 256)),
       [Xfer.out [0xab, 0x00, 0x00, off % 256, (off / 256) % 256, 0x00, 0x00, size % 256] 1,
        Xfer.inn (size + 6) 1]) := by
  have hsz256 : size % 256 = size := Nat.mod_eq_of_lt (by omega)
  have haddr : off % 256 + 256 * ((off / 256) % 256) = off := by omega
  have hsr := send_receive_ok s (flashTransport flash)
    [0xab, 0x00, 0x00, off % 256, (off / 256) % 256, 0x00, 0x00, size % 256] (size + 6)
    8 (List.replicate 6 0 ++
        (List.range (size % 256)).map
          (fun i => flash (off % 256 + 256 * ((off / 256) % 256) + i) % 256))
    hh rfl (by simp) rfl
  have hD : List.takeD (size + 6)
      (List.replicate 6 0 ++
        (List.range (size % 256)).map
          (fun i => flash (off % 256 + 256 * ((off / 256) % 256) + i) % 256)) 0 =
      List.replicate 6 0 ++ (List.range size).map (fun i => flash (off + i) % 256) := by
    rw [hsz256, haddr]
    exact takeD_of_length_eq _ _
      (by simp only [List.length_append, List.length_replicate, List.length_map,
            List.length_range]; omega)
  rw [hD] at hsr
  have hstat : (List.replicate 6 0 ++
      (List.range size).map (fun i => flash (off + i) % 256)).getD 4 0 = 0 := by
    rw [List.getD_append _ _ _ _ (by simp)]
    simp
  have hpayload : (List.range size).map
      (fun i => (List.replicate 6 0 ++
        (List.range size).map (fun j => flash (off + j) % 256)).getD (i + 6) 0) =
      (List.range size).map (fun i => flash (off + i) % 256) := by
    apply List.map_congr_left
    intro i hi
    rw [List.mem_range] at hi
    rw [List.getD_append_right _ _ _ _ (by simp), List.getD_eq_getElem _ _ (by simpa)]
    simp
  unfold read_data_in_range
  rw [if_neg (by omega)]
  dsimp only
  rw [hsr]
  have hfin : (if (List.replicate 6 0 ++
        (List.range size).map (fun i => flash (off + i) % 256)).getD 4 0 ≠ 0
      then ((Except.error "failed to read" : Except String (List Nat)),
        [Xfer.out [0xab, 0x00, 0x00, off % 256, (off / 256) % 256, 0x00, 0x00, size % 256] 1,
         Xfer.inn (size + 6) 1])
      else (Except.ok ((List.range size).map (fun i =>
          (List.replicate 6 0 ++
            (List.range size).map (fun j => flash (off + j) % 256)).getD (i + 6) 0)),
        [Xfer.out [0xab, 0x00, 0x00, off % 256, (off / 256) % 256, 0x00, 0x00, size % 256] 1,
         Xfer.inn (size + 6) 1]))
      = (Except.ok ((List.range size).map (fun i => flash (off + i) % 256)),
         [Xfer.out [0xab, 0x00, 0x00, off % 256, (off / 256) % 256, 0x00, 0x00, size % 256] 1,
          Xfer.inn (size + 6) 1]) := by
    rw [if_neg (fun h => h hstat), hpayload]
  exact hfin

theorem range'_map_chunk (flash : Nat → Nat) (offset size : Nat) :
    (List.range size).map (fun i => flash (offset + i) % 256) =
    (List.range' offset size).map (fun p => flash p % 256) := by
  rw [List.range'_eq_map_range, List.map_map]
  rfl

/-- The chunk loop of `read_data`, over a flash-backed transport, returns
exactly the flash bytes from `offset` (inclusive) to `length` (exclusive),
in offset order: the chunks cover the range with no gaps or overlaps. -/
theorem read_loop_flash (s : Ch559) (flash : Nat → Nat) (hh : s.handle = true) :
    ∀ fuel length offset, length ≤ offset + 0x38 * fuel → length ≤ 65536 →
      (read_loop s (flashTransport flash) (chunksFromAux fuel length offset)).1 =
        Except.ok ((List.range' offset (length - offset)).map (fun p => flash p % 256)) := by
  intro fuel
  induction fuel with
  | zero =>
    intro length offset h hbound
    have h0 : length - offset = 0 := by omega
    rw [chunksFromAux, h0]
    rfl
  | succ fuel ih =>
    intro length offset h hbound
    rw [chunksFromAux]
    by_cases hlt : offset < length
    · rw [if_pos hlt]
      dsimp only
      set size := if length - offset > 0x38 then 0x38 else length - offset with hsizedef
      have hsz : size ≤ 0x38 := by
        rw [hsizedef]
        split <;> omega
      have hsz2 : (size = 0x38 ∧ 0x38 < length - offset)
          ∨ (size = length - offset ∧ length - offset ≤ 0x38) := by
        rw [hsizedef]
        split
        · exact Or.inl ⟨rfl, by omega⟩
        · exact Or.inr ⟨rfl, by omega⟩
      rw [read_loop, read_range_flash s flash offset size hh hsz (by omega)]
      rcases hrl : read_loop s (flashTransport flash)
          (chunksFromAux fuel length (offset + 0x38)) with ⟨res2, tr2⟩
      have hrest := ih length (offset + 0x38) (by omega) hbound
      rw [hrl] at hrest
      simp only at hrest
      subst hrest
      show Prod.fst (Except.ok ((List.range size).map (fun i => flash (offset + i) % 256) ++
          (List.range' (offset + 0x38) (length - (offset + 0x38))).map (fun p => flash p % 256)),
          _) = _
      simp only
      rw [range'_map_chunk]
      congr 1
      rw [← List.map_append]
      congr 1
      rcases hsz2 with ⟨h56, hgt⟩ | ⟨hrem, hle⟩
      · rw [h56]
        have : length - offset = (length - (offset + 0x38)) + 0x38 := by omega
        rw [this, List.range'_append_1]
      · have h0 : length - (offset + 0x38) = 0 := by omega
        rw [h0, hrem]
        simp
    · rw [if_neg hlt]
      have h0 : length - offset = 0 := by omega
      rw [h0]
      rfl

/-- `read_data` over a flash-backed transport reproduces exactly the
0x400 bytes of the data region in offset order. -/
theorem read_data_flash (s : Ch559) (flash : Nat → Nat) (hh : s.handle = true)
    (hk : s.key_is_reset = true) :
    (read_data s (flashTransport flash)).1.1 =
      Except.ok ((List.range 0x400).map (fun p => flash p % 256)) := by
  have hrk : reset_key s (flashTransport flash) = ((Except.ok (), s), []) := by
    unfold reset_key
    rw [hh, hk]
    rfl
  unfold read_data
  rw [hrk]
  dsimp only
  rcases hrl : read_loop s (flashTransport flash) (chunks 0x400) with ⟨res, tr2⟩
  have hres := read_loop_flash s flash hh (0x400 / 0x38 + 1) 0x400 0 (by omega) (by omega)
  have hc : chunks 0x400 = chunksFromAux (0x400 / 0x38 + 1) 0x400 0 := rfl
  rw [← hc, hrl] at hres
  simp only at hres
  subst hres
  dsimp only
  simp only [Nat.sub_zero]
  rw [List.range_eq_range']

/-- The source-file validation of `Ch559::write` (src/ch559.rs lines
132-157): the input must be a regular file; for the data region a
non-fullfill length must be exactly 0x400 and any length over 0x400 is an
error; for the code region a length over 0xF400 is an error. -/
def validate_file (is_file : Bool) (file_length : Nat) (data_region fullfill : Bool) :
    Except String Unit :=
  if is_file = false then Except.error "not a regular file"
  else if data_region then
    if fullfill = false ∧ file_length ≠ 0x400 then Except.error "file size should be 0x400"
    else if file_length > 0x400 then Except.error "file size is too large for data"
    else Except.ok ()
  else
    if file_length > 0xf400 then Except.error "file size is too large for code"
    else Except.ok ()

/-- The target length of `Ch559::write` (src/ch559.rs lines 161-171). -/
def target_length (file_length : Nat) (data_region fullfill : Bool) : Nat :=
  if fullfill then
    if data_region then 0x400
    else if file_length > 0xf000 then 0xf400
    else 0xf000
  else file_length

/-- `Ch559::write_verify_in_range` (src/ch559.rs lines 387-436): guard the
chunk size, send the built request, read a 6-byte response and require its
byte 4 to be zero. -/
def write_verify_in_range (s : Ch559) (t : Transport) (addr : Nat) (data : List Nat)
    (write_ data_region fullfill : Bool) (gen : Nat → Nat) :
    Except String Unit × List Xfer :=
  if data.length > 0x38 then (Except.error "read size is too large", [])
  else
    match send_receive s t (wv_request addr data write_ data_region fullfill s.chip_id gen) 6 with
    | (Except.ok response, tr) =>
      if response.getD 4 0 ≠ 0 then
        (Except.error (if write_ then "failed to flash" else "failed to verify"), tr)
      else (Except.ok (), tr)
    | (Except.error e, tr) => (Except.error e, tr)

/-- Result of the chunk loop of `Ch559::write`: the outcome, the list of
`(offset, data)` chunk calls passed to `write_verify_in_range`, and the
attempted transfers. -/
structure LoopOut where
  result : Except String Unit
  calls : List (Nat × List Nat)
  trace : List Xfer
deriving Repr

/-- The chunk loop of `Ch559::write` (src/ch559.rs lines 173-211).  For
each chunk, `read_size` is the number of bytes of the chunk that lie
within the source file; the rest of the chunk is filled with freshly drawn
random bytes.  The random stream `gen` is indexed by a running draw
counter `k` (the source draws sequentially from one generator); the bytes
drawn inside `write_verify_in_range` for 8-alignment padding (only drawn
when `fullfill`) advance the same counter. -/
def write_loop (s : Ch559) (t : Transport) (file : List Nat)
    (write_ data_region fullfill : Bool) (gen : Nat → Nat) :
    List (Nat × Nat) → Nat → LoopOut
  | [], _ => ⟨Except.ok (), [], []⟩
  | (offset, size) :: rest, k =>
    let read_size := if offset > file.length then 0
      else if offset + size > file.length then file.length - offset
      else size
    let data := (List.range size).map (fun i =>
      if i < read_size then file.getD (offset + i) 0 else gen (k + (i - read_size)) % 256)
    let k2 := k + (size - read_size)
    match write_verify_in_range s t offset data write_ data_region fullfill
        (fun j => gen (k2 + j)) with
    | (Except.ok _, tr) =>
      let k3 := if fullfill then k2 + (wv_length data.length - data.length) else k2
      let next := write_loop s t file write_ data_region fullfill gen rest k3
      ⟨next.result, (offset, data) :: next.calls, tr ++ next.trace⟩
    | (Except.error e, tr) => ⟨Except.error e, [(offset, data)], tr⟩

/-- Result of `Ch559::write`: outcome, final session state, chunk calls,
attempted transfers, and whether the "code will run over data region"
warning was printed. -/
structure WriteOut where
  result : Except String Unit
  state : Ch559
  calls : List (Nat × List Nat)
  trace : List Xfer
  warned : Bool

/-- `Ch559::write` (src/ch559.rs lines 119-213).  The source file is
modelled as the byte list `file` plus the `is_file` metadata flag; opening
the file and reading it are file I/O treated as a byte source.  `gen` is
the random byte stream used to fill bytes beyond the file's length. -/
def write (s : Ch559) (t : Transport) (file : List Nat) (is_file : Bool)
    (write_ data_region fullfill : Bool) (gen : Nat → Nat) : WriteOut :=
  match validate_file is_file file.length data_region fullfill with
  | Except.error e => ⟨Except.error e, s, [], [], false⟩
  | Except.ok _ =>
    let warned := !data_region && decide (file.length > 0xf000)
    match reset_key s t with
    | ((Except.error e, s2), tr) => ⟨Except.error e, s2, [], tr, warned⟩
    | ((Except.ok _, s2), tr) =>
      let length := target_length file.length data_region fullfill
      let lp := write_loop s2 t file write_ data_region fullfill gen (chunks length) 0
      ⟨lp.result, s2, lp.calls, tr ++ lp.trace, warned⟩

/-- `reset_key` is a no-op when the key is already reset. -/
theorem reset_key_already (s : Ch559) (t : Transport) (hh : s.handle = true)
    (hk : s.key_is_reset = true) :
    reset_key s t = ((Except.ok (), s), []) := by
  unfold reset_key
  rw [hh, hk]
  rfl

/-- Over `okTransport`, every in-range write/verify chunk succeeds. -/
theorem wv_ok (s : Ch559) (addr : Nat) (data : List Nat) (w dr ff : Bool)
    (g : Nat → Nat) (hh : s.handle = true) (hlen : data.length ≤ 0x38) :
    write_verify_in_range s okTransport addr data w dr ff g =
      (Except.ok (),
       [Xfer.out (wv_request addr data w dr ff s.chip_id g) 1, Xfer.inn 6 1]) := by
  have hsr := send_receive_ok s okTransport (wv_request addr data w dr ff s.chip_id g) 6
    ((wv_request addr data w dr ff s.chip_id g).length) (List.replicate 6 0) hh rfl rfl rfl
  have hD : List.takeD 6 (List.replicate 6 0) 0 = List.replicate 6 0 :=
    takeD_of_length_eq _ _ (by simp)
  rw [hD] at hsr
  unfold write_verify_in_range
  rw [if_neg (by omega), hsr]
  have hfin : (if (List.replicate 6 0).getD 4 0 ≠ 0
      then ((Except.error (if w then "failed to flash" else "failed to verify") :
              Except String Unit),
        [Xfer.out (wv_request addr data w dr ff s.chip_id g) 1, Xfer.inn 6 1])
      else (Except.ok (),
        [Xfer.out (wv_request addr data w dr ff s.chip_id g) 1, Xfer.inn 6 1]))
      = (Except.ok (),
         [Xfer.out (wv_request addr data w dr ff s.chip_id g) 1, Xfer.inn 6 1]) := by
    rw [if_neg (by simp)]
  exact hfin

/-- The chunk loop of `write`, when every chunk lies inside the source
file: each chunk call carries exactly the corresponding file slice and the
loop succeeds. -/
theorem write_loop_within_file (s : Ch559) (file : List Nat) (gen : Nat → Nat)
    (write_ data_region fullfill : Bool) (hh : s.handle = true) :
    ∀ fuel length offset k, length ≤ offset + 0x38 * fuel → length ≤ file.length →
      (write_loop s okTransport file write_ data_region fullfill gen
          (chunksFromAux fuel length offset) k).result = Except.ok ()
      ∧ (write_loop s okTransport file write_ data_region fullfill gen
          (chunksFromAux fuel length offset) k).calls =
        (chunksFromAux fuel length offset).map
          (fun c => (c.1, (List.range c.2).map (fun i => file.getD (c.1 + i) 0))) := by
  intro fuel
  induction fuel with
  | zero =>
    intro length offset k h hfile
    rw [chunksFromAux]
    exact ⟨rfl, rfl⟩
  | succ fuel ih =>
    intro length offset k h hfile
    rw [chunksFromAux]
    by_cases hlt : offset < length
    · rw [if_pos hlt]
      dsimp only
      set size := if length - offset > 0x38 then 0x38 else length - offset with hsizedef
      have hsize_le : size ≤ length - offset := by
        rw [hsizedef]
        split <;> omega
      have hsz38 : size ≤ 0x38 := by
        rw [hsizedef]
        split <;> omega
      have hrs : (if offset > file.length then 0
          else if offset + size > file.length then file.length - offset
          else size) = size := by
        rw [if_neg (by omega), if_neg (by omega)]
      rw [write_loop]
      rw [hrs]
      have hdata : (List.range size).map (fun i =>
          if i < size then file.getD (offset + i) 0 else gen (k + (i - size)) % 256) =
          (List.range size).map (fun i => file.getD (offset + i) 0) := by
        apply List.map_congr_left
        intro i hi
        rw [List.mem_range] at hi
        rw [if_pos hi]
      rw [hdata]
      rw [wv_ok s offset _ write_ data_region fullfill _ hh (by simp [hsz38])]
      have hnext := ih length (offset + 0x38)
        (if fullfill then k + (size - size) +
          (wv_length ((List.range size).map (fun i => file.getD (offset + i) 0)).length -
           ((List.range size).map (fun i => file.getD (offset + i) 0)).length)
         else k + (size - size))
        (by omega) hfile
      refine ⟨?_, ?_⟩
      · exact hnext.1
      · show ((offset, (List.range size).map (fun i => file.getD (offset + i) 0)) :: _) = _
        rw [List.map_cons]
        exact congrArg _ hnext.2
    · rw [if_neg hlt]
      exact ⟨rfl, rfl⟩

/-- C4: a 0x400-byte transfer uses exactly 19 chunks at offsets 0, 0x38,
…, 0x3F0 in increasing order, each of size `min(0x38, 0x400 - offset)`
(the last exactly 0x10), covering the 0x400 bytes with no gaps or
overlaps: `read_data` returns exactly the 0x400 flash bytes in offset
order, and `write` on a data-region image of exactly 0x400 bytes with
`fullfill = false` issues exactly these 19 chunk commands, each carrying
the corresponding file slice. -/
theorem C4_chunking_0x400 :
    (chunks 0x400).length = 19
    ∧ (chunks 0x400).map Prod.fst = (List.range 19).map (fun j => 0x38 * j)
    ∧ (∀ c ∈ chunks 0x400, c.2 = min 0x38 (0x400 - c.1))
    ∧ (chunks 0x400).getLast? = some (0x3F0, 0x10)
    ∧ (∀ (flash : Nat → Nat) (s : Ch559), s.handle = true → s.key_is_reset = true →
        (read_data s (flashTransport flash)).1.1 =
          Except.ok ((List.range 0x400).map (fun p => flash p % 256)))
    ∧ (∀ (s : Ch559) (file : List Nat) (gen : Nat → Nat) (w : Bool),
        s.handle = true → s.key_is_reset = true → file.length = 0x400 →
        (write s okTransport file true w true false gen).result = Except.ok ()
        ∧ (write s okTransport file true w true false gen).calls =
            (chunks 0x400).map
              (fun c => (c.1, (List.range c.2).map (fun i => file.getD (c.1 + i) 0)))) := by
  refine ⟨by decide, by decide, by decide, by decide, ?_, ?_⟩
  · intro flash s hh hk
    exact read_data_flash s flash hh hk
  · intro s file gen w hh hk hfl
    have hv : validate_file true file.length true false = Except.ok () := by
      rw [hfl]
      rfl
    have hloop := write_loop_within_file s file gen w true false hh
      (0x400 / 0x38 + 1) 0x400 0 0 (by omega) (by omega)
    have hchunks : chunks (target_length file.length true false) =
        chunksFromAux (0x400 / 0x38 + 1) 0x400 0 := by
      unfold target_length
      rw [hfl]
      rfl
    unfold write
    rw [hv, reset_key_already s okTransport hh hk]
    dsimp only
    rw [hchunks]
    exact ⟨hloop.1, hloop.2⟩

theorem C4_witness :
    (read_data ⟨true, 0, 0, 0, "unknown", 0, true⟩ (flashTransport (fun _ => 3))).1.1 =
      Except.ok ((List.range 0x400).map (fun p => (fun _ => 3) p % 256))
    ∧ ((write ⟨true, 0, 0, 0, "unknown", 0, true⟩ okTransport (List.replicate 0x400 7)
          true true true false (fun _ => 0)).result = Except.ok ()
      ∧ (write ⟨true, 0, 0, 0, "unknown", 0, true⟩ okTransport (List.replicate 0x400 7)
          true true true false (fun _ => 0)).calls =
          (chunks 0x400).map
            (fun c => (c.1, (List.range c.2).map
              (fun i => (List.replicate 0x400 7).getD (c.1 + i) 0)))) :=
  ⟨C4_chunking_0x400.2.2.2.2.1 (fun _ => 3) ⟨true, 0, 0, 0, "unknown", 0, true⟩ rfl rfl,
   C4_chunking_0x400.2.2.2.2.2 ⟨true, 0, 0, 0, "unknown", 0, true⟩ (List.replicate 0x400 7)
     (fun _ => 0) true rfl rfl (List.length_replicate _ _)⟩

/-- C6: `write` requires a regular file; for the data region a length
other than exactly 0x400 is an error when `fullfill` is false and a length
over 0x400 is always an error; for the code region a length over 0xF400 is
an error while a length of 0xF100 (over 0xF000) only emits the overlap
warning and the operation proceeds with target length exactly the file
length; with `fullfill` the target length is 0x400 for data, and 0xF400 or
0xF000 for code according to whether the file exceeds 0xF000. -/
theorem C6_write_validation_and_target_length :
    (∀ (file_length : Nat) (data_region fullfill : Bool),
        validate_file false file_length data_region fullfill =
          Except.error "not a regular file")
    ∧ (∀ file_length : Nat, file_length ≠ 0x400 →
        validate_file true file_length true false =
          Except.error "file size should be 0x400")
    ∧ (∀ (file_length : Nat) (fullfill : Bool), file_length > 0x400 →
        ∃ e, validate_file true file_length true fullfill = Except.error e)
    ∧ (∀ (file_length : Nat) (fullfill : Bool), file_length > 0xf400 →
        validate_file true file_length false fullfill =
          Except.error "file size is too large for code")
    ∧ (∀ (s : Ch559) (file : List Nat) (gen : Nat → Nat),
        s.handle = true → s.key_is_reset = true → file.length = 0xF100 →
        (write s okTransport file true true false false gen).result = Except.ok ()
        ∧ (write s okTransport file true true false false gen).warned = true
        ∧ target_length file.length false false = 0xF100)
    ∧ (∀ (file_length : Nat) (data_region : Bool),
        target_length file_length data_region false = file_length)
    ∧ (∀ file_length : Nat, target_length file_length true true = 0x400)
    ∧ (∀ file_length : Nat, file_length > 0xf000 →
        target_length file_length false true = 0xf400)
    ∧ (∀ file_length : Nat, file_length ≤ 0xf000 →
        target_length file_length false true = 0xf000) := by
  refine ⟨?_, ?_, ?_, ?_, ?_, ?_, ?_, ?_, ?_⟩
  · intro file_length data_region fullfill
    rfl
  · intro file_length h
    simp [validate_file, h]
  · intro file_length ff h
    cases ff
    · exact ⟨"file size should be 0x400", by simp [validate_file]; omega⟩
    · refine ⟨"file size is too large for data", ?_⟩
      show (if file_length > 0x400
          then (Except.error "file size is too large for data" : Except String Unit)
          else Except.ok ()) = Except.error "file size is too large for data"
      rw [if_pos h]
  · intro file_length ff h
    simp only [validate_file]
    rw [if_neg (by simp), if_neg (by simp), if_pos h]
  · intro s file gen hh hk hfl
    have hv : validate_file true file.length false false = Except.ok () := by
      rw [hfl]
      rfl
    have hloop := write_loop_within_file s file gen true false false hh
      (0xF100 / 0x38 + 1) 0xF100 0 0 (by omega) (by omega)
    have hchunks : chunks (target_length file.length false false) =
        chunksFromAux (0xF100 / 0x38 + 1) 0xF100 0 := by
      unfold target_length
      rw [hfl]
      rfl
    have hwarn : (!false && decide (file.length > 0xf000)) = true := by
      rw [hfl]
      rfl
    refine ⟨?_, ?_, by rw [hfl]; rfl⟩
    · unfold write
      rw [hv, reset_key_already s okTransport hh hk]
      dsimp only
      rw [hchunks]
      exact hloop.1
    · unfold write
      rw [hv, reset_key_already s okTransport hh hk]
      dsimp only
      rw [hfl]
      rfl
  · intro file_length data_region
    rfl
  · intro file_length
    rfl
  · intro file_length h
    show (if file_length > 0xf000 then 0xf400 else 0xf000) = 0xf400
    rw [if_pos h]
  · intro file_length h
    show (if file_length > 0xf000 then 0xf400 else 0xf000) = 0xf000
    rw [if_neg (by omega)]

theorem C6_witness :
    (write ⟨true, 0, 0, 0, "unknown", 0, true⟩ okTransport (List.replicate 0xF100 1)
        true true false false (fun _ => 0)).result = Except.ok ()
    ∧ (write ⟨true, 0, 0, 0, "unknown", 0, true⟩ okTransport (List.replicate 0xF100 1)
        true true false false (fun _ => 0)).warned = true
    ∧ target_length (List.replicate 0xF100 1).length false false = 0xF100 :=
  C6_write_validation_and_target_length.2.2.2.2.1 ⟨true, 0, 0, 0, "unknown", 0, true⟩
    (List.replicate 0xF100 1) (fun _ => 0) rfl rfl (List.length_replicate _ _)

inductive Direction where
  | dIn
  | dOut
deriving DecidableEq, Repr

inductive TransferType where
  | bulk
  | control
  | isochronous
  | interrupt
deriving DecidableEq, Repr

structure EndpointDesc where
  direction : Direction
  address : Nat
  ttype : TransferType
deriving DecidableEq, Repr

/-- The mutable state of the endpoint loop in `Ch559::initialize`
(src/ch559.rs lines 226-243): recorded address, transfer type and found
flag per direction; the types start out as `Bulk` and the flags as false. -/
structure EpScan where
  ep_in : Nat
  ep_in_type : TransferType
  ep_in_found : Bool
  ep_out : Nat
  ep_out_type : TransferType
  ep_out_found : Bool
deriving DecidableEq, Repr

def ep_scan_init : EpScan :=
  ⟨0, TransferType.bulk, false, 0, TransferType.bulk, false⟩

/-- One iteration of `for ep in desc.endpoint_descriptors()`: the fields
for the endpoint's direction are overwritten unconditionally. -/
def ep_scan_step (st : EpScan) (ep : EndpointDesc) : EpScan :=
  match ep.direction with
  | Direction.dIn =>
    { st with ep_in := ep.address, ep_in_type := ep.ttype, ep_in_found := true }
  | Direction.dOut =>
    { st with ep_out := ep.address, ep_out_type := ep.ttype, ep_out_found := true }

/-- The endpoint scan and check of `Ch559::initialize` (src/ch559.rs lines
226-250): loop over the endpoint descriptors, then fail unless both
directions were found with bulk transfer type. -/
def scan_endpoints (eps : List EndpointDesc) : Except String (Nat × Nat) :=
  let st := eps.foldl ep_scan_step ep_scan_init
  if ¬st.ep_in_found ∨ ¬st.ep_out_found
      ∨ st.ep_in_type ≠ TransferType.bulk ∨ st.ep_out_type ≠ TransferType.bulk then
    Except.error "failed to detect EPs"
  else Except.ok (st.ep_in, st.ep_out)

/-- The endpoint-recording rule in the words of the claim and of the spec
("record the first bulk-IN and first bulk-OUT addresses; fail if either
direction is missing or either matching endpoint is not of bulk transfer
type"): the candidates are the FIRST endpoint of each direction.  Written
only for comparison against `scan_endpoints`, which embeds the code. -/
def scan_endpoints_spec_first (eps : List EndpointDesc) : Except String (Nat × Nat) :=
  match eps.find? (fun ep => decide (ep.direction = Direction.dIn)),
        eps.find? (fun ep => decide (ep.direction = Direction.dOut)) with
  | some epi, some epo =>
    if epi.ttype = TransferType.bulk ∧ epo.ttype = TransferType.bulk then
      Except.ok (epi.address, epo.address)
    else Except.error "failed to detect EPs"
  | _, _ => Except.error "failed to detect EPs"

/-- The last endpoint descriptor of direction `d` in a list. -/
def lastDir (d : Direction) : List EndpointDesc → Option EndpointDesc
  | [] => none
  | e :: l =>
    match lastDir d l with
    | some x => some x
    | none => if e.direction = d then some e else none

/-- How the scan loop combines an initial state with the last descriptor
of each direction. -/
def scan_result (st : EpScan) (li lo : Option EndpointDesc) : EpScan where
  ep_in := match li with | some e => e.address | none => st.ep_in
  ep_in_type := match li with | some e => e.ttype | none => st.ep_in_type
  ep_in_found := match li with | some _ => true | none => st.ep_in_found
  ep_out := match lo with | some e => e.address | none => st.ep_out
  ep_out_type := match lo with | some e => e.ttype | none => st.ep_out_type
  ep_out_found := match lo with | some _ => true | none => st.ep_out_found

/-- The endpoint loop records, per direction, the LAST matching
descriptor (each iteration overwrites the previous one). -/
theorem ep_scan_fold (eps : List EndpointDesc) : ∀ st : EpScan,
    eps.foldl ep_scan_step st =
      scan_result st (lastDir Direction.dIn eps) (lastDir Direction.dOut eps) := by
  induction eps with
  | nil =>
    intro st
    rfl
  | cons e l ih =>
    intro st
    rw [List.foldl_cons, ih]
    cases hdi : lastDir Direction.dIn l <;> cases hdo : lastDir Direction.dOut l <;>
      cases hdir : e.direction <;>
        simp [lastDir, scan_result, ep_scan_step, hdi, hdo, hdir]

structure AltSetting where
  eps : List EndpointDesc

structure InterfaceDesc where
  number : Nat
  settings : List AltSetting

structure ConfigDesc where
  number : Nat
  interfaces : List InterfaceDesc

/-- The rusb device-side information consumed by `Ch559::initialize`: the
result of `config_descriptor(0)` (`none` models an `Err`), and whether
`set_active_configuration` and `claim_interface` succeed. -/
structure UsbDevice where
  config : Option ConfigDesc
  setConfigOk : Bool
  claimOk : Bool

/-- The fixed 21-byte detect command (src/ch559.rs lines 264-267). -/
def detect_request : List Nat :=
  [0xa1, 0x12, 0x00, 0x59, 0x11, 0x4d, 0x43, 0x55, 0x20, 0x49, 0x53, 0x50, 0x20, 0x26,
   0x20, 0x57, 0x43, 0x48, 0x2e, 0x43, 0x4e]

/-- The fixed 5-byte identify command (src/ch559.rs line 278). -/
def identify_request : List Nat := [0xa7, 0x02, 0x00, 0x1f, 0x00]

/-- The detect/identify handshake of `Ch559::initialize` (src/ch559.rs
lines 264-295, steps 5-6 of initialization): send the detect command, read
a 6-byte response whose byte 4 must be 0x59 (stored as the chip id), then
send the identify command, read a 30-byte response, derive the version
string from bytes 19-21 and the checksum seed as the wrapping 8-bit sum of
bytes 22-25.  Transport failures of either exchange are wrapped by
appending " on detect". -/
def handshake (s : Ch559) (t : Transport) :
    (Except String Unit × Ch559) × List Xfer :=
  match send_receive s t detect_request 6 with
  | (Except.error e, tr) => ((Except.error (e ++ " on detect"), s), tr)
  | (Except.ok dresp, tr) =>
    if dresp.getD 4 0 ≠ 0x59 then
      ((Except.error "failed to receive a valid response on detect", s), tr)
    else
      let s2 := { s with chip_id := dresp.getD 4 0 }
      match send_receive s2 t identify_request 30 with
      | (Except.error e, tr2) => ((Except.error (e ++ " on detect"), s2), tr ++ tr2)
      | (Except.ok iresp, tr2) =>
        let s3 := { s2 with
          version := toString (iresp.getD 19 0) ++ "." ++ toString (iresp.getD 20 0)
            ++ toString (iresp.getD 21 0),
          sum := (iresp.getD 22 0 + iresp.getD 23 0 + iresp.getD 24 0
            + iresp.getD 25 0) % 256 }
        ((Except.ok (), s3), tr ++ tr2)

/-- `Ch559::initialize` (src/ch559.rs lines 215-299): check the handle,
read the configuration descriptor, take the first interface and its first
alternate setting, scan its endpoints (note: the source has no else branch
for a missing alternate setting, so the scan is silently skipped there),
activate the configuration, claim the interface, then run the
detect/identify handshake. -/
def init_device (s : Ch559) (d : UsbDevice) (t : Transport) :
    (Except String Unit × Ch559) × List Xfer :=
  if s.handle = false then ((Except.error "invalid handle", s), [])
  else
    match d.config with
    | none => ((Except.error "failed to check configurations", s), [])
    | some config =>
      match config.interfaces.head? with
      | none => ((Except.error "failed to check interfaces", s), [])
      | some interface =>
        let scanned : Except String Ch559 :=
          match interface.settings.head? with
          | none => Except.ok s
          | some desc =>
            let st := desc.eps.foldl ep_scan_step ep_scan_init
            let s2 := { s with ep_in := st.ep_in, ep_out := st.ep_out }
            if ¬st.ep_in_found ∨ ¬st.ep_out_found
                ∨ st.ep_in_type ≠ TransferType.bulk
                ∨ st.ep_out_type ≠ TransferType.bulk then
              Except.error "failed to detect EPs"
            else Except.ok s2
        match scanned with
        | Except.error e => ((Except.error e, s), [])
        | Except.ok s2 =>
          if d.setConfigOk = false then
            ((Except.error "failed to activate the target configuration", s2), [])
          else if d.claimOk = false then
            ((Except.error "failed to claim the target interface", s2), [])
          else handshake s2 t

/-- `Ch559::new` (src/ch559.rs lines 23-42): open the device (modelled by
`found`), and if connected run `initialize`, discarding the handle on any
initialization error. -/
def new (found : Bool) (d : UsbDevice) (t : Transport) : Ch559 × List Xfer :=
  let s0 : Ch559 := ⟨found, 0, 0, 0, "unknown", 0, false⟩
  if is_connected s0 then
    match init_device s0 d t with
    | ((Except.ok _, s2), tr) => (s2, tr)
    | ((Except.error _, s2), tr) => ({ s2 with handle := false }, tr)
  else (s0, [])

theorem send_receive_no_handle (s : Ch559) (t : Transport) (request : List Nat)
    (respLen : Nat) (hh : s.handle = false) :
    send_receive s t request respLen = (Except.error "invalid handle", []) := by
  unfold send_receive
  rw [hh]
  rfl

theorem reset_key_no_handle (s : Ch559) (t : Transport) (hh : s.handle = false) :
    reset_key s t = ((Except.error "invalid handle", s), []) := by
  unfold reset_key
  rw [hh]
  rfl

theorem erase_no_handle (s : Ch559) (t : Transport) (hh : s.handle = false) :
    erase s t = ((Except.error "invalid handle", s), []) := by
  unfold erase
  rw [reset_key_no_handle s t hh]

theorem erase_data_no_handle (s : Ch559) (t : Transport) (hh : s.handle = false) :
    erase_data s t = ((Except.error "invalid handle", s), []) := by
  unfold erase_data
  rw [reset_key_no_handle s t hh]

theorem read_data_no_handle (s : Ch559) (t : Transport) (hh : s.handle = false) :
    read_data s t = ((Except.error "invalid handle", s), []) := by
  unfold read_data
  rw [reset_key_no_handle s t hh]

theorem write_no_handle (s : Ch559) (t : Transport) (file : List Nat) (is_file : Bool)
    (w dr ff : Bool) (gen : Nat → Nat) (hh : s.handle = false) :
    (write s t file is_file w dr ff gen).trace = []
    ∧ (write s t file is_file w dr ff gen).calls = []
    ∧ (write s t file is_file w dr ff gen).state = s
    ∧ (validate_file is_file file.length dr ff = Except.ok () →
        (write s t file is_file w dr ff gen).result = Except.error "invalid handle") := by
  unfold write
  cases hv : validate_file is_file file.length dr ff with
  | error e =>
    refine ⟨rfl, rfl, rfl, ?_⟩
    intro hok
    exact absurd hok (by simp)
  | ok u =>
    rw [reset_key_no_handle s t hh]
    exact ⟨rfl, rfl, rfl, fun _ => rfl⟩

/-- C7 counterexample: with endpoints [bulk IN 0x81, interrupt IN 0x82,
bulk OUT 0x02], the code fails endpoint discovery (it records the LAST IN
endpoint, the interrupt one), while the claim's first-endpoint rule would
succeed and record the bulk pair (0x81, 0x02). -/
theorem C7_counterexample :
    scan_endpoints
      [⟨Direction.dIn, 0x81, TransferType.bulk⟩,
       ⟨Direction.dIn, 0x82, TransferType.interrupt⟩,
       ⟨Direction.dOut, 0x02, TransferType.bulk⟩] = Except.error "failed to detect EPs"
    ∧ scan_endpoints_spec_first
      [⟨Direction.dIn, 0x81, TransferType.bulk⟩,
       ⟨Direction.dIn, 0x82, TransferType.interrupt⟩,
       ⟨Direction.dOut, 0x02, TransferType.bulk⟩] = Except.ok (0x81, 0x02) := by
  constructor
  · rfl
  · rfl

/-- C7 (amended): endpoint discovery records the LAST IN and LAST OUT
endpoint of the first interface's first alternate setting (the loop
overwrites earlier candidates), and fails with the endpoint-discovery
error if either direction is missing or the recorded candidate of either
direction is not of bulk transfer type; when discovery (or any other
initialization step) fails, the handle is discarded and no flash command
can be issued — `erase` fails with "invalid handle" without attempting a
single bulk transfer. -/
theorem C7_endpoint_scan_records_last :
    (∀ eps : List EndpointDesc,
      scan_endpoints eps =
        match lastDir Direction.dIn eps, lastDir Direction.dOut eps with
        | some i, some o =>
          if i.ttype = TransferType.bulk ∧ o.ttype = TransferType.bulk then
            Except.ok (i.address, o.address)
          else Except.error "failed to detect EPs"
        | some _, none => Except.error "failed to detect EPs"
        | none, _ => Except.error "failed to detect EPs")
    ∧ (∀ (found : Bool) (d : UsbDevice) (t t2 : Transport) (cfg : ConfigDesc)
        (intf : InterfaceDesc) (alt : AltSetting) (e : String),
        d.config = some cfg → cfg.interfaces.head? = some intf →
        intf.settings.head? = some alt → scan_endpoints alt.eps = Except.error e →
        (new found d t).1.handle = false
        ∧ (new found d t).2 = []
        ∧ erase (new found d t).1 t2 =
            ((Except.error "invalid handle", (new found d t).1), [])) := by
  constructor
  · intro eps
    unfold scan_endpoints
    rw [ep_scan_fold eps ep_scan_init]
    cases hdi : lastDir Direction.dIn eps with
    | none => simp [scan_result, ep_scan_init]
    | some i =>
      cases hdo : lastDir Direction.dOut eps with
      | none => simp [scan_result, ep_scan_init]
      | some o =>
        simp only [scan_result]
        split
        · rename_i hcondT
          rcases hcondT with h1 | h2 | h3 | h4
          · exact absurd trivial h1
          · exact absurd trivial h2
          · rw [if_neg (fun hb2 => h3 hb2.1)]
          · rw [if_neg (fun hb2 => h4 hb2.2)]
        · rename_i hcondF
          push_neg at hcondF
          rw [if_pos ⟨hcondF.2.2.1, hcondF.2.2.2⟩]
  · intro found d t t2 cfg intf alt e hc hi ha hscan
    have hcond : (¬(alt.eps.foldl ep_scan_step ep_scan_init).ep_in_found
        ∨ ¬(alt.eps.foldl ep_scan_step ep_scan_init).ep_out_found
        ∨ (alt.eps.foldl ep_scan_step ep_scan_init).ep_in_type ≠ TransferType.bulk
        ∨ (alt.eps.foldl ep_scan_step ep_scan_init).ep_out_type ≠ TransferType.bulk) := by
      unfold scan_endpoints at hscan
      dsimp only at hscan
      split at hscan
      · assumption
      · exact absurd hscan (by simp)
    cases found with
    | false =>
      have hnew : new false d t = (⟨false, 0, 0, 0, "unknown", 0, false⟩, []) := rfl
      rw [hnew]
      exact ⟨rfl, rfl, erase_no_handle _ t2 rfl⟩
    | true =>
      have hinit : init_device ⟨true, 0, 0, 0, "unknown", 0, false⟩ d t =
          ((Except.error "failed to detect EPs", ⟨true, 0, 0, 0, "unknown", 0, false⟩), []) := by
        unfold init_device
        rw [if_neg (by simp), hc]
        dsimp only
        rw [hi]
        dsimp only
        rw [ha]
        dsimp only
        rw [if_pos hcond]
      have hnew : new true d t =
          ({ (⟨true, 0, 0, 0, "unknown", 0, false⟩ : Ch559) with handle := false }, []) := by
        simp only [new, is_connected]
        rw [hinit]
        rfl
      rw [hnew]
      exact ⟨rfl, rfl, erase_no_handle _ t2 rfl⟩

theorem C7_witness :
    (new true ⟨some ⟨0, [⟨0, [⟨[⟨Direction.dIn, 0x81, TransferType.bulk⟩,
        ⟨Direction.dIn, 0x82, TransferType.interrupt⟩,
        ⟨Direction.dOut, 0x02, TransferType.bulk⟩]⟩]⟩]⟩, true, true⟩ okTransport).1.handle
      = false
    ∧ (new true ⟨some ⟨0, [⟨0, [⟨[⟨Direction.dIn, 0x81, TransferType.bulk⟩,
        ⟨Direction.dIn, 0x82, TransferType.interrupt⟩,
        ⟨Direction.dOut, 0x02, TransferType.bulk⟩]⟩]⟩]⟩, true, true⟩ okTransport).2 = []
    ∧ erase (new true ⟨some ⟨0, [⟨0, [⟨[⟨Direction.dIn, 0x81, TransferType.bulk⟩,
        ⟨Direction.dIn, 0x82, TransferType.interrupt⟩,
        ⟨Direction.dOut, 0x02, TransferType.bulk⟩]⟩]⟩]⟩, true, true⟩ okTransport).1
        okTransport =
      ((Except.error "invalid handle",
        (new true ⟨some ⟨0, [⟨0, [⟨[⟨Direction.dIn, 0x81, TransferType.bulk⟩,
          ⟨Direction.dIn, 0x82, TransferType.interrupt⟩,
          ⟨Direction.dOut, 0x02, TransferType.bulk⟩]⟩]⟩]⟩, true, true⟩ okTransport).1), []) :=
  C7_endpoint_scan_records_last.2 true
    ⟨some ⟨0, [⟨0, [⟨[⟨Direction.dIn, 0x81, TransferType.bulk⟩,
      ⟨Direction.dIn, 0x82, TransferType.interrupt⟩,
      ⟨Direction.dOut, 0x02, TransferType.bulk⟩]⟩]⟩]⟩, true, true⟩ okTransport okTransport
    ⟨0, [⟨0, [⟨[⟨Direction.dIn, 0x81, TransferType.bulk⟩,
      ⟨Direction.dIn, 0x82, TransferType.interrupt⟩,
      ⟨Direction.dOut, 0x02, TransferType.bulk⟩]⟩]⟩]⟩
    ⟨0, [⟨[⟨Direction.dIn, 0x81, TransferType.bulk⟩,
      ⟨Direction.dIn, 0x82, TransferType.interrupt⟩,
      ⟨Direction.dOut, 0x02, TransferType.bulk⟩]⟩]⟩
    ⟨[⟨Direction.dIn, 0x81, TransferType.bulk⟩,
      ⟨Direction.dIn, 0x82, TransferType.interrupt⟩,
      ⟨Direction.dOut, 0x02, TransferType.bulk⟩]⟩
    "failed to detect EPs" rfl rfl rfl rfl

/-- A well-formed device description: one configuration, one interface,
one alternate setting with a bulk IN and a bulk OUT endpoint. -/
def goodDevice : UsbDevice :=
  ⟨some ⟨0, [⟨0, [⟨[⟨Direction.dIn, 0x81, TransferType.bulk⟩,
    ⟨Direction.dOut, 0x02, TransferType.bulk⟩]⟩]⟩]⟩, true, true⟩

/-- A transport whose bulk reads always fail with cause "io". -/
def readFailTransport : Transport :=
  ⟨fun req _ => Except.ok req.length, fun _ _ _ => Except.error "io"⟩

/-- A transport that answers the 6-byte detect read successfully (status
byte 0x59) and fails every other read with cause "io". -/
def identifyFailTransport : Transport :=
  ⟨fun req _ => Except.ok req.length,
   fun _ len _ => if len = 6 then Except.ok [0, 0, 0, 0, 0x59, 0] else Except.error "io"⟩

/-- C9 counterexample: a transport failure during the DETECT exchange
(run A: 2 transfers attempted) and one during the IDENTIFY exchange
(run B: detect succeeded, 4 transfers attempted) produce the identical
error message "failed to do a bulk read response (io) on detect" — the
identify phase is also tagged " on detect", so the caller cannot
distinguish the two phases from the error. -/
theorem C9_counterexample :
    (init_device ⟨true, 0, 0, 0, "unknown", 0, false⟩ goodDevice readFailTransport).1.1 =
      Except.error "failed to do a bulk read response (io) on detect"
    ∧ (init_device ⟨true, 0, 0, 0, "unknown", 0, false⟩ goodDevice identifyFailTransport).1.1 =
      Except.error "failed to do a bulk read response (io) on detect"
    ∧ (init_device ⟨true, 0, 0, 0, "unknown", 0, false⟩ goodDevice readFailTransport).2.length
      = 2
    ∧ (init_device ⟨true, 0, 0, 0, "unknown", 0, false⟩ goodDevice
        identifyFailTransport).2.length = 4 := by
  refine ⟨?_, ?_, ?_, ?_⟩ <;> rfl

/-- C9 (amended): every failure during the detect/identify handshake
(steps 5-6 of initialization) is wrapped with the suffix " on detect" —
including identify-phase failures — so the caller can tell handshake
failures from later command errors, but not the detect phase from the
identify phase. -/
theorem C9_handshake_failures_all_tagged_on_detect (s : Ch559) (t : Transport)
    (m : String) (hfail : (handshake s t).1.1 = Except.error m) :
    ∃ e, m = e ++ " on detect" := by
  unfold handshake at hfail
  rcases hsd : send_receive s t detect_request 6 with ⟨res, tr⟩
  rw [hsd] at hfail
  cases res with
  | error e =>
    simp only at hfail
    exact ⟨e, (by injection hfail with h; exact h.symm)⟩
  | ok dresp =>
    simp only at hfail
    by_cases hd : dresp.getD 4 0 ≠ 0x59
    · rw [if_pos hd] at hfail
      simp only at hfail
      injection hfail with h
      exact ⟨"failed to receive a valid response", by rw [← h]; rfl⟩
    · rw [if_neg hd] at hfail
      rcases hsi : send_receive { s with chip_id := dresp.getD 4 0 } t identify_request 30
        with ⟨res2, tr2⟩
      rw [hsi] at hfail
      cases res2 with
      | error e =>
        simp only at hfail
        exact ⟨e, (by injection hfail with h; exact h.symm)⟩
      | ok iresp =>
        simp only at hfail
        exact absurd hfail (by simp)

theorem C9_witness :
    ∃ e, "failed to do a bulk read response (io) on detect" = e ++ " on detect" :=
  C9_handshake_failures_all_tagged_on_detect ⟨true, 0, 0, 0, "unknown", 0, false⟩
    readFailTransport "failed to do a bulk read response (io) on detect" rfl

/-- The handshake never touches `key_is_reset`. -/
theorem handshake_preserves_key (s : Ch559) (t : Transport) :
    ((handshake s t).1.2).key_is_reset = s.key_is_reset := by
  unfold handshake
  rcases hsd : send_receive s t detect_request 6 with ⟨res, tr⟩
  cases res with
  | error e => rfl
  | ok dresp =>
    dsimp only
    by_cases hd : dresp.getD 4 0 ≠ 0x59
    · rw [if_pos hd]
    · rw [if_neg hd]
      rcases hsi : send_receive { s with chip_id := dresp.getD 4 0 } t identify_request 30
        with ⟨res2, tr2⟩
      cases res2 with
      | error e => rfl
      | ok iresp => rfl

/-- `init_device` never touches `key_is_reset`, whether it succeeds or
fails. -/
theorem init_device_preserves_key (s : Ch559) (d : UsbDevice) (t : Transport) :
    ((init_device s d t).1.2).key_is_reset = s.key_is_reset := by
  unfold init_device
  split
  · rfl
  · split
    · rfl
    · split
      · rfl
      · rename_i interface _
        dsimp only
        split
        · rfl
        · rename_i s2 hs2
          have hkey : s2.key_is_reset = s.key_is_reset := by
            split at hs2
            · injection hs2 with h
              rw [← h]
            · split at hs2
              · exact absurd hs2 (by simp)
              · injection hs2 with h
                rw [← h]
          split
          · exact hkey
          · split
            · exact hkey
            · rw [handshake_preserves_key s2 t, hkey]

/-- C10: after a failed setup — no matching device, or any initialization
failure — the handle is `None`, `is_connected` is false, and every flash
operation fails with "invalid handle", raised from `reset_key` or
`send_receive` before any bulk transfer is attempted; `key_is_reset`
remains false, so no command ever reaches a device. -/
theorem C10_failed_setup_no_commands :
    (∀ (d : UsbDevice) (t : Transport),
        (new false d t).1.handle = false ∧ (new false d t).2 = []
        ∧ (new false d t).1.key_is_reset = false)
    ∧ (∀ (found : Bool) (d : UsbDevice) (t : Transport) (e : String),
        (init_device ⟨found, 0, 0, 0, "unknown", 0, false⟩ d t).1.1 = Except.error e →
        (new found d t).1.handle = false ∧ (new found d t).1.key_is_reset = false)
    ∧ (∀ (s : Ch559) (t : Transport), s.handle = false →
        is_connected s = false
        ∧ reset_key s t = ((Except.error "invalid handle", s), [])
        ∧ erase s t = ((Except.error "invalid handle", s), [])
        ∧ erase_data s t = ((Except.error "invalid handle", s), [])
        ∧ read_data s t = ((Except.error "invalid handle", s), [])
        ∧ (∀ (request : List Nat) (respLen : Nat),
            send_receive s t request respLen = (Except.error "invalid handle", []))
        ∧ (∀ (file : List Nat) (is_file w dr ff : Bool) (gen : Nat → Nat),
            (write s t file is_file w dr ff gen).trace = []
            ∧ (write s t file is_file w dr ff gen).calls = []
            ∧ (write s t file is_file w dr ff gen).state = s
            ∧ (validate_file is_file file.length dr ff = Except.ok () →
                (write s t file is_file w dr ff gen).result =
                  Except.error "invalid handle"))) := by
  refine ⟨?_, ?_, ?_⟩
  · intro d t
    exact ⟨rfl, rfl, rfl⟩
  · intro found d t e he
    cases found with
    | false => exact ⟨rfl, rfl⟩
    | true =>
      rcases hi : init_device ⟨true, 0, 0, 0, "unknown", 0, false⟩ d t with ⟨⟨res, s2⟩, tr⟩
      have hkey : s2.key_is_reset = false := by
        have := init_device_preserves_key ⟨true, 0, 0, 0, "unknown", 0, false⟩ d t
        rw [hi] at this
        exact this
      rw [hi] at he
      simp only at he
      cases res with
      | ok u => exact absurd he (by simp)
      | error e2 =>
        have hnew : new true d t = ({ s2 with handle := false }, tr) := by
          simp only [new, is_connected]
          rw [hi]
          rfl
        rw [hnew]
        exact ⟨rfl, hkey⟩
  · intro s t hh
    refine ⟨?_, reset_key_no_handle s t hh, erase_no_handle s t hh,
      erase_data_no_handle s t hh, read_data_no_handle s t hh,
      fun request respLen => send_receive_no_handle s t request respLen hh,
      fun file is_file w dr ff gen => write_no_handle s t file is_file w dr ff gen hh⟩
    unfold is_connected
    exact hh

theorem C10_witness :
    is_connected ⟨false, 0, 0, 0, "unknown", 0, false⟩ = false
    ∧ reset_key ⟨false, 0, 0, 0, "unknown", 0, false⟩ okTransport =
        ((Except.error "invalid handle", ⟨false, 0, 0, 0, "unknown", 0, false⟩), [])
    ∧ erase ⟨false, 0, 0, 0, "unknown", 0, false⟩ okTransport =
        ((Except.error "invalid handle", ⟨false, 0, 0, 0, "unknown", 0, false⟩), [])
    ∧ erase_data ⟨false, 0, 0, 0, "unknown", 0, false⟩ okTransport =
        ((Except.error "invalid handle", ⟨false, 0, 0, 0, "unknown", 0, false⟩), [])
    ∧ read_data ⟨false, 0, 0, 0, "unknown", 0, false⟩ okTransport =
        ((Except.error "invalid handle", ⟨false, 0, 0, 0, "unknown", 0, false⟩), [])
    ∧ (∀ (request : List Nat) (respLen : Nat),
        send_receive ⟨false, 0, 0, 0, "unknown", 0, false⟩ okTransport request respLen =
          (Except.error "invalid handle", []))
    ∧ (∀ (file : List Nat) (is_file w dr ff : Bool) (gen : Nat → Nat),
        (write ⟨false, 0, 0, 0, "unknown", 0, false⟩ okTransport file is_file w dr ff
          gen).trace = []
        ∧ (write ⟨false, 0, 0, 0, "unknown", 0, false⟩ okTransport file is_file w dr ff
            gen).calls = []
        ∧ (write ⟨false, 0, 0, 0, "unknown", 0, false⟩ okTransport file is_file w dr ff
            gen).state = ⟨false, 0, 0, 0, "unknown", 0, false⟩
        ∧ (validate_file is_file file.length dr ff = Except.ok () →
            (write ⟨false, 0, 0, 0, "unknown", 0, false⟩ okTransport file is_file w dr ff
              gen).result = Except.error "invalid handle")) :=
  C10_failed_setup_no_commands.2.2 ⟨false, 0, 0, 0, "unknown", 0, false⟩ okTransport rfl

theorem wv_length_eq_self : ∀ n, n < 57 → n % 8 = 0 → wv_length n = n := by decide

theorem chunksFromAux_nil (fuel length offset : Nat) (h : ¬offset < length) :
    chunksFromAux fuel length offset = [] := by
  cases fuel with
  | zero => rfl
  | succ fuel => rw [chunksFromAux, if_neg h]

/-- Modelled from the spec: the seedable deterministic Random Fill
Generator is code of this repository missing from src/ — src/main.rs
already calls `ch559.set_seed(seed)`, but src/ch559.rs still draws from
thread-global `rand::random`, so the seeded generator itself is not in the
sources.  Following the spec's words ("seedable deterministic byte
generator", "deterministic sequence of bytes from an integer seed;
restartable per write operation"), it is modelled as a 64-bit
linear-congruential byte stream: `randomFill seed i` is the i-th byte
drawn after seeding with `seed` (the concrete constants stand in for the
unspecified algorithm). -/
def lcg_next (x : Nat) : Nat :=
  (6364136223846793005 * x + 1442695040888963407) % (2 ^ 64)

def randomFill (seed : Int) (i : Nat) : Nat :=
  (lcg_next^[i + 1] ((seed.emod (2 ^ 64)).toNat)) % 256

theorem map_getD_range (l : List Nat) :
    (List.range l.length).map (fun i => l.getD i 0) = l := by
  apply List.ext_getElem
  · simp
  · intro i h1 h2
    simp [List.getD_eq_getElem?_getD, List.getElem?_eq_getElem h2]

/-- The chunk loop of `write` under `fullfill`: every chunk succeeds, and
the concatenation of the chunk data is the file bytes at positions below
`file.length` and sequential generator draws (draw index = position minus
file length) above it.  `k` is the running draw count, equal to
`offset - min offset file.length` on entry to each chunk. -/
theorem write_loop_fullfill (s : Ch559) (file : List Nat) (gen : Nat → Nat)
    (write_ data_region : Bool) (hh : s.handle = true) :
    ∀ fuel length offset k,
      length ≤ offset + 0x38 * fuel →
      offset % 8 = 0 → length % 8 = 0 →
      k = offset - min offset file.length →
      file.length ≤ length →
      ((write_loop s okTransport file write_ data_region true gen
          (chunksFromAux fuel length offset) k).result = Except.ok ()
      ∧ ((write_loop s okTransport file write_ data_region true gen
          (chunksFromAux fuel length offset) k).calls.map Prod.snd).flatten =
        (List.range' offset (length - offset)).map
          (fun p => if p < file.length then file.getD p 0
                    else gen (p - file.length) % 256)) := by
  intro fuel
  induction fuel with
  | zero =>
    intro length offset k h h8o h8l hk hfl
    rw [chunksFromAux]
    have h0 : length - offset = 0 := by omega
    rw [h0]
    exact ⟨rfl, rfl⟩
  | succ fuel ih =>
    intro length offset k h h8o h8l hk hfl
    rw [chunksFromAux]
    by_cases hlt : offset < length
    · rw [if_pos hlt]
      dsimp only
      set size := if length - offset > 0x38 then 0x38 else length - offset with hsizedef
      have hsprop : (size = 0x38 ∧ 0x38 < length - offset)
          ∨ (size = length - offset ∧ length - offset ≤ 0x38) := by
        rw [hsizedef]
        split
        · exact Or.inl ⟨rfl, by omega⟩
        · exact Or.inr ⟨rfl, by omega⟩
      have hsz38 : size ≤ 0x38 := by rcases hsprop with ⟨h1, _⟩ | ⟨h1, h2⟩ <;> omega
      have hszmod : size % 8 = 0 := by rcases hsprop with ⟨h1, _⟩ | ⟨h1, h2⟩ <;> omega
      have hrs : (if offset > file.length then 0
          else if offset + size > file.length then file.length - offset else size)
          = min size (file.length - offset) := by
        split
        · omega
        · split <;> omega
      rw [write_loop, hrs]
      have hdata : (List.range size).map (fun i =>
          if i < min size (file.length - offset) then file.getD (offset + i) 0
          else gen (k + (i - min size (file.length - offset))) % 256) =
        (List.range' offset size).map
          (fun p => if p < file.length then file.getD p 0
                    else gen (p - file.length) % 256) := by
        rw [List.range'_eq_map_range, List.map_map]
        apply List.map_congr_left
        intro i hi
        rw [List.mem_range] at hi
        show _ = if offset + i < file.length then file.getD (offset + i) 0
          else gen (offset + i - file.length) % 256
        by_cases hin : i < min size (file.length - offset)
        · rw [if_pos hin, if_pos (by omega)]
        · rw [if_neg hin, if_neg (by omega)]
          have harg : k + (i - min size (file.length - offset))
              = offset + i - file.length := by omega
          rw [harg]
      have hlen_data : ((List.range size).map (fun i =>
          if i < min size (file.length - offset) then file.getD (offset + i) 0
          else gen (k + (i - min size (file.length - offset))) % 256)).length = size := by
        simp
      rw [wv_ok s offset _ write_ data_region true _ hh (by rw [hlen_data]; exact hsz38)]
      have hpad : wv_length ((List.range size).map (fun i =>
          if i < min size (file.length - offset) then file.getD (offset + i) 0
          else gen (k + (i - min size (file.length - offset))) % 256)).length
          - ((List.range size).map (fun i =>
          if i < min size (file.length - offset) then file.getD (offset + i) 0
          else gen (k + (i - min size (file.length - offset))) % 256)).length = 0 := by
        rw [hlen_data, wv_length_eq_self size (by omega) hszmod]
        omega
      rcases hsprop with ⟨h56, hgt⟩ | ⟨hrem, hle⟩
      · -- middle chunk of size 0x38
        have hnext := ih length (offset + 0x38)
          (if true = true then k + (size - min size (file.length - offset)) + (wv_length
            ((List.range size).map (fun i =>
              if i < min size (file.length - offset) then file.getD (offset + i) 0
              else gen (k + (i - min size (file.length - offset))) % 256)).length
            - ((List.range size).map (fun i =>
              if i < min size (file.length - offset) then file.getD (offset + i) 0
              else gen (k + (i - min size (file.length - offset))) % 256)).length)
           else k + (size - min size (file.length - offset)))
          (by omega) (by omega) h8l
          (by rw [if_pos rfl, hpad]; omega) hfl
        refine ⟨hnext.1, ?_⟩
        show ((List.range size).map _ ++ _) = _
        rw [hnext.2, hdata]
        rw [← List.map_append, show length - offset = (length - (offset + 0x38)) + 0x38
          by omega, ← List.range'_append_1, h56]
      · -- last chunk
        have hempty : chunksFromAux fuel length (offset + 0x38) = [] :=
          chunksFromAux_nil fuel length (offset + 0x38) (by omega)
        rw [hempty]
        refine ⟨rfl, ?_⟩
        show ((List.range size).map _ ++ []) = _
        rw [List.append_nil, hdata, hrem]
    · rw [if_neg hlt]
      have h0 : length - offset = 0 := by omega
      rw [h0]
      exact ⟨rfl, rfl⟩

/-- A fullfill write of a data-region file of length at most 0x400 over
`okTransport` succeeds, and the concatenated chunk data it sends is the
file followed by the generator draws in order: the padding byte for
position `p` is draw number `p - file.length` of the seeded stream. -/
theorem write_fullfill_image (seed : Int) (s : Ch559) (file : List Nat)
    (hh : s.handle = true) (hk : s.key_is_reset = true) (hfl : file.length ≤ 0x400) :
    (write s okTransport file true true true true (randomFill seed)).result = Except.ok ()
    ∧ ((write s okTransport file true true true true (randomFill seed)).calls.map
        Prod.snd).flatten =
      file ++ (List.range (0x400 - file.length)).map (fun j => randomFill seed j % 256) := by
  have hv : validate_file true file.length true true = Except.ok () := by
    show (if file.length > 0x400
        then (Except.error "file size is too large for data" : Except String Unit)
        else Except.ok ()) = Except.ok ()
    rw [if_neg (by omega)]
  have hloop := write_loop_fullfill s file (randomFill seed) true true hh
    (0x400 / 0x38 + 1) 0x400 0 0 (by omega) (by omega) (by omega) (by omega) hfl
  have hchunks : chunks (target_length file.length true true) =
      chunksFromAux (0x400 / 0x38 + 1) 0x400 0 := rfl
  constructor
  · unfold write
    rw [hv, reset_key_already s okTransport hh hk]
    dsimp only
    rw [hchunks]
    exact hloop.1
  · unfold write
    rw [hv, reset_key_already s okTransport hh hk]
    dsimp only
    rw [hchunks, hloop.2, Nat.sub_zero]
    have hsplit : (List.range' 0 0x400 : List Nat)
        = List.range' 0 file.length ++ List.range' (0 + file.length) (0x400 - file.length) := by
      rw [List.range'_append_1,
        show (0x400 - file.length) + file.length = 0x400 by omega]
    rw [hsplit, List.map_append]
    congr 1
    · rw [show List.range' 0 file.length = List.range file.length from
        (List.range_eq_range' file.length).symm]
      have hcongr : (List.range file.length).map
          (fun p => if p < file.length then file.getD p 0
                    else randomFill seed (p - file.length) % 256) =
          (List.range file.length).map (fun i => file.getD i 0) :=
        List.map_congr_left (fun i hi => by
          rw [List.mem_range] at hi
          rw [if_pos hi])
      rw [hcongr]
      exact map_getD_range file
    · rw [List.range'_eq_map_range, List.map_map]
      apply List.map_congr_left
      intro j hj
      rw [List.mem_range] at hj
      show (if 0 + file.length + j < file.length then file.getD (0 + file.length + j) 0
        else randomFill seed (0 + file.length + j - file.length) % 256)
        = randomFill seed j % 256
      rw [if_neg (by omega), show 0 + file.length + j - file.length = j by omega]

/-- C5 (spec-modelled): fullfill padding is deterministic for a fixed
seed — the write output is a function of the seed and the file alone, and
the padding bytes in the unused tail are exactly the seeded generator's
draws in position order — while two different seeds produce padding
differing in at least one byte (witnessed concretely for seeds 1 and 2). -/
theorem C5_fullfill_padding_deterministic :
    (∀ (s : Ch559) (t : Transport) (seed1 seed2 : Int) (file1 file2 : List Nat),
        seed1 = seed2 → file1 = file2 →
        write s t file1 true true true true (randomFill seed1) =
          write s t file2 true true true true (randomFill seed2))
    ∧ (∀ (seed : Int) (s : Ch559) (file : List Nat),
        s.handle = true → s.key_is_reset = true → file.length ≤ 0x400 →
        (write s okTransport file true true true true (randomFill seed)).result = Except.ok ()
        ∧ ((write s okTransport file true true true true (randomFill seed)).calls.map
            Prod.snd).flatten =
          file ++ (List.range (0x400 - file.length)).map
            (fun j => randomFill seed j % 256))
    ∧ (((write ⟨true, 0, 0, 0, "unknown", 0, true⟩ okTransport (List.replicate 8 1)
          true true true true (randomFill 1)).calls.map Prod.snd).flatten ≠
       ((write ⟨true, 0, 0, 0, "unknown", 0, true⟩ okTransport (List.replicate 8 1)
          true true true true (randomFill 2)).calls.map Prod.snd).flatten) := by
  refine ⟨?_, ?_, ?_⟩
  · intro s t seed1 seed2 file1 file2 hseed hfile
    rw [hseed, hfile]
  · intro seed s file hh hk hfl
    exact write_fullfill_image seed s file hh hk hfl
  · have e1 := (write_fullfill_image 1 ⟨true, 0, 0, 0, "unknown", 0, true⟩
      (List.replicate 8 1) rfl rfl (by decide)).2
    have e2 := (write_fullfill_image 2 ⟨true, 0, 0, 0, "unknown", 0, true⟩
      (List.replicate 8 1) rfl rfl (by decide)).2
    rw [e1, e2]
    intro heq
    have h3 := congrArg (fun l => l.getD (List.replicate 8 1).length 0) heq
    simp only at h3
    rw [List.getD_append_right _ _ _ _ (Nat.le_refl _), Nat.sub_self,
      List.getD_append_right _ _ _ _ (Nat.le_refl _), Nat.sub_self] at h3
    rw [List.getD_eq_getElem _ _ (by simp), List.getD_eq_getElem _ _ (by simp)] at h3
    simp only [List.getElem_map, List.getElem_range] at h3
    exact absurd h3 (by decide)

theorem C5_witness :
    (write ⟨true, 0, 0, 0, "unknown", 0, true⟩ okTransport (List.replicate 8 1)
        true true true true (randomFill 5)).result = Except.ok ()
    ∧ ((write ⟨true, 0, 0, 0, "unknown", 0, true⟩ okTransport (List.replicate 8 1)
        true true true true (randomFill 5)).calls.map Prod.snd).flatten =
      List.replicate 8 1 ++ (List.range (0x400 - (List.replicate 8 1).length)).map
        (fun j => randomFill 5 j % 256) :=
  C5_fullfill_padding_deterministic.2.1 5 ⟨true, 0, 0, 0, "unknown", 0, true⟩
    (List.replicate 8 1) rfl rfl (by decide)
